import Mathlib

/-!
Verification development for the `machine_learning_class` repository
(two teaching notebooks: an sklearn MLP on a tabular breast-cancer
dataset, and a PyTorch CNN on CIFAR-10).

The definitions below shallowly embed the notebook cells and the
documented contracts of the library calls those cells make.  Data
matrices are represented column-wise (one list per feature), real
arithmetic is over `ℝ` where the scaler's standard deviation (a square
root) is involved, and over `ℚ` where everything is rational.
-/

namespace MLClass

/-! ### Tabular notebook: the scaling cell

The cell reads
```
scaler = StandardScaler()
scaler.fit(X_train)
X_train = scaler.transform(X_train)
X_test = scaler.transform(X_test)
```
`StandardScaler` (per the sklearn contract restated in the notebook's
markdown) fits a per-feature mean `mu_i` and standard deviation
`sigma_i` and transforms each feature value `x` to `(x - mu_i) / sigma_i`,
where `sigma_i` is the square root of the population variance. -/

/-- Mean of a feature column (sklearn uses the arithmetic mean). -/
noncomputable def mean (l : List ℝ) : ℝ := l.sum / l.length

/-- Population variance of a feature column (sklearn `StandardScaler`
uses `ddof = 0`). -/
noncomputable def varOf (l : List ℝ) : ℝ :=
  ((l.map (fun x => (x - mean l) ^ 2)).sum) / l.length

/-- Standard deviation of a feature column: square root of the
population variance. -/
noncomputable def stdOf (l : List ℝ) : ℝ := Real.sqrt (varOf l)

/-- The `StandardScaler` transform of one feature column given the
fitted statistics `m` (mean) and `s` (standard deviation):
`x' = (x - m) / s`. -/
noncomputable def standardize (m s : ℝ) (l : List ℝ) : List ℝ :=
  l.map (fun x => (x - m) / s)

/-- Fitted state of a `StandardScaler`: per-feature mean and standard
deviation. -/
structure Scaler where
  mu : List ℝ
  sigma : List ℝ

/-- `scaler.fit(X)`: compute per-feature mean and standard deviation of
the data it is fitted on.  `X` is a list of feature columns. -/
noncomputable def StandardScaler.fit (X : List (List ℝ)) : Scaler :=
  ⟨X.map mean, X.map stdOf⟩

/-- `scaler.transform(X)`: apply the fitted per-feature statistics to
each feature column of `X`. -/
noncomputable def Scaler.transform (sc : Scaler) (X : List (List ℝ)) :
    List (List ℝ) :=
  List.zipWith (fun p col => standardize p.1 p.2 col) (sc.mu.zip sc.sigma) X

/-- The scaling cell of the tabular notebook: fit on `X_train`, then
transform `X_train` and `X_test` with the fitted scaler. -/
noncomputable def scalingCell (Xtrain Xtest : List (List ℝ)) :
    List (List ℝ) × List (List ℝ) :=
  let scaler := StandardScaler.fit Xtrain
  (scaler.transform Xtrain, scaler.transform Xtest)

/-- The scaler operations the scaling cell performs, in source order. -/
inductive ScalerOp where
  | fitOp (arg : String)
  | transformOp (arg : String)
deriving DecidableEq, Repr

/-- The trace of scaler calls in the scaling cell, transcribed from the
source: one `fit` on `X_train`, then two `transform`s. -/
def scalingCellTrace : List ScalerOp :=
  [ScalerOp.fitOp "X_train",
   ScalerOp.transformOp "X_train",
   ScalerOp.transformOp "X_test"]

/-- Whether a scaler operation is a `fit`. -/
def ScalerOp.isFit : ScalerOp → Bool
  | .fitOp _ => true
  | .transformOp _ => false

/-- The column standardized against its own statistics, as happens to
each training feature column in the scaling cell. -/
noncomputable def selfScaled (l : List ℝ) : List ℝ :=
  standardize (mean l) (stdOf l) l

/-! ### CNN notebook: imshow un-normalization (all-rational) -/

/-- Dataset transform `Normalize((0.5,0.5,0.5),(0.5,0.5,0.5))` on one
pixel channel value: `x ↦ (x - 0.5) / 0.5`. -/
def normalizePixel (x : ℚ) : ℚ := (x - 1/2) / (1/2)

/-- The `imshow` helper's un-normalization of one pixel channel value:
`img = img / 2 + 0.5`. -/
def unNormalizePixel (y : ℚ) : ℚ := y / 2 + 1/2

/-- `Normalize` applied pointwise to a flat image. -/
def normalizeImage (img : List ℚ) : List ℚ := img.map normalizePixel

/-- `imshow`'s un-normalization applied pointwise to a flat image. -/
def unNormalizeImage (img : List ℚ) : List ℚ := img.map unNormalizePixel

/-! ### CNN notebook: parameter counts of `Net` -/

/-- Number of learnable parameters of
`nn.Conv2d(inC, outC, k)` with default `bias=True`: an
`outC × inC × k × k` weight tensor plus an `outC` bias vector. -/
def conv2dParamCount (inC outC k : ℕ) : ℕ := outC * inC * k * k + outC

/-- Number of learnable parameters of `nn.Linear(inF, outF)` with
default `bias=True`: an `outF × inF` weight matrix plus an `outF` bias
vector. -/
def linearParamCount (inF outF : ℕ) : ℕ := outF * inF + outF

/-- `sum(p.numel() for p in net.parameters() if p.requires_grad)` for
the notebook's `Net`: conv1 = Conv2d(3, 6, 5), conv2 = Conv2d(6, 16, 5),
fc1 = Linear(16*5*5, 120), fc2 = Linear(120, 84), fc3 = Linear(84, 10).
The pooling layer has no parameters, and every parameter of a freshly
constructed module has `requires_grad = True`. -/
def netParamCount : ℕ :=
  conv2dParamCount 3 6 5 + conv2dParamCount 6 16 5 +
    linearParamCount (16 * 5 * 5) 120 + linearParamCount 120 84 +
    linearParamCount 84 10

/-- The hand-written parameter-count expression from the notebook cell,
verbatim. -/
def handParamCount : ℕ :=
  6*3*5*5 + 6 + 16*6*5*5 + 16 + 120*400 + 120 + 84*120 + 84 + 10*84 + 10

/-! ### Predicted classes: `np.argmax` and `torch.max(outputs, 1)`

The tabular notebook prints `np.argmax(x_predict[i,:])` as the
predicted class of test sample `i`; the CNN notebook computes
`_, predicted = torch.max(outputs, 1)`.  Both library calls return, per
row, the index of the first occurrence of the row's maximum. -/

/-- Maximum entry of a row of scores (0 on the empty row, which the
notebooks never produce). -/
def listMax : List ℚ → ℚ
  | [] => 0
  | [x] => x
  | x :: y :: xs => max x (listMax (y :: xs))

/-- `np.argmax` on a row: index of the first occurrence of the maximum
(numpy documents first-occurrence tie-breaking). -/
def npArgmax : List ℚ → ℕ
  | [] => 0
  | [_] => 0
  | x :: y :: xs => if listMax (y :: xs) ≤ x then 0 else npArgmax (y :: xs) + 1

/-- `torch.max(·, dim)` on a single row: the pair (maximum value, index
of its first occurrence), as PyTorch documents for `torch.max` along a
dimension. -/
def torchMaxRow : List ℚ → ℚ × ℕ
  | [] => (0, 0)
  | [x] => (x, 0)
  | x :: y :: xs =>
    if (torchMaxRow (y :: xs)).1 ≤ x then (x, 0)
    else ((torchMaxRow (y :: xs)).1, (torchMaxRow (y :: xs)).2 + 1)

/-- The predicted class the tabular notebook prints for one row of
`clf.predict_proba(X_test)`: literally `np.argmax(x_predict[i,:])`. -/
def printedPredictedClass (row : List ℚ) : ℕ := npArgmax row

/-- The CNN notebook's predicted labels: the index component of
`torch.max(outputs, 1)`, one entry per row of the output batch. -/
def torchPredicted (outputs : List (List ℚ)) : List ℕ :=
  outputs.map (fun row => (torchMaxRow row).2)

/-! ### CNN notebook: shape semantics of `Net.forward`

`Net` is: conv1 = Conv2d(3, 6, 5), pool = MaxPool2d(2, 2),
conv2 = Conv2d(6, 16, 5), fc1 = Linear(400, 120), fc2 = Linear(120, 84),
fc3 = Linear(84, 10); `forward` is
`pool(relu(conv1 x))`, `pool(relu(conv2 x))`, `x.view(-1, 400)`,
`relu(fc1 x)`, `relu(fc2 x)`, `fc3 x`.  We embed each layer's
documented shape rule and compose them exactly as `forward` does. -/

/-- Shape of a 4-d tensor batch: batch × channels × height × width. -/
structure Shape4 where
  b : ℕ
  c : ℕ
  h : ℕ
  w : ℕ
deriving DecidableEq, Repr

/-- Shape of a 2-d tensor: rows × features. -/
structure Shape2 where
  n : ℕ
  f : ℕ
deriving DecidableEq, Repr

/-- Shape rule of `nn.Conv2d(inC, outC, k)` with default stride 1,
padding 0, dilation 1: requires `inC` input channels and a spatial
extent of at least `k`; output spatial dims shrink by `k - 1`. -/
def conv2dShape (inC outC k : ℕ) (s : Shape4) : Option Shape4 :=
  if s.c = inC ∧ k ≤ s.h ∧ k ≤ s.w then
    some ⟨s.b, outC, s.h - k + 1, s.w - k + 1⟩
  else none

/-- Shape rule of `nn.MaxPool2d(k, st)`: output spatial dim is
`(d - k) / st + 1` (floor division), requiring a window to fit. -/
def maxPool2dShape (k st : ℕ) (s : Shape4) : Option Shape4 :=
  if k ≤ s.h ∧ k ≤ s.w then
    some ⟨s.b, s.c, (s.h - k) / st + 1, (s.w - k) / st + 1⟩
  else none

/-- Shape rule of `relu` (elementwise): identity on shapes. -/
def reluShape (s : Shape4) : Option Shape4 := some s

/-- Shape rule of `x.view(-1, m)`: the total element count must divide
exactly by `m`; the inferred first dimension is the quotient. -/
def viewFlatten (m : ℕ) (s : Shape4) : Option Shape2 :=
  if s.b * s.c * s.h * s.w % m = 0 then
    some ⟨s.b * s.c * s.h * s.w / m, m⟩
  else none

/-- Shape rule of `nn.Linear(inF, outF)`: requires `inF` input
features; rows are preserved. -/
def linearShape (inF outF : ℕ) (s : Shape2) : Option Shape2 :=
  if s.f = inF then some ⟨s.n, outF⟩ else none

/-- Shape rule of `relu` on a 2-d tensor: identity. -/
def reluShape2 (s : Shape2) : Option Shape2 := some s

/-- Shape semantics of `Net.forward`, composed exactly as in the
source: `pool(relu(conv1 x))`, `pool(relu(conv2 x))`,
`x.view(-1, 16*5*5)`, `relu(fc1 x)`, `relu(fc2 x)`, `fc3 x`. -/
def netForwardShape (s : Shape4) : Option Shape2 :=
  (conv2dShape 3 6 5 s).bind reluShape |>.bind (maxPool2dShape 2 2)
    |>.bind (conv2dShape 6 16 5) |>.bind reluShape
    |>.bind (maxPool2dShape 2 2)
    |>.bind (viewFlatten (16 * 5 * 5))
    |>.bind (linearShape (16 * 5 * 5) 120) |>.bind reluShape2
    |>.bind (linearShape 120 84) |>.bind reluShape2
    |>.bind (linearShape 84 10)

/-! ### Cell-level model of both notebooks

Each code cell is a list of statements; a statement is a library call
(named by the function it invokes, with the arguments that matter for
effects) or a `try/except` block.  Neither notebook contains a
`try/except`, so every transcribed statement is a call. -/

/-- A statement of a notebook cell. -/
inductive Stmt where
  | call (name : String)
  | tryExcept (body handler : Stmt)
deriving DecidableEq, Repr

/-- Whether a statement is an exception handler construct. -/
def Stmt.hasHandler : Stmt → Bool
  | .call _ => false
  | .tryExcept _ _ => true

/-- The `torchvision.datasets.CIFAR10` constructions in the CNN
notebook's dataset cell (both with `root='./'`, `download=True`). -/
def cifarTrainCall : String :=
  "torchvision.datasets.CIFAR10(root=./, train=True, download=True)"

/-- The test-split CIFAR-10 construction. -/
def cifarTestCall : String :=
  "torchvision.datasets.CIFAR10(root=./, train=False, download=True)"

/-- The training `DataLoader` construction, with its arguments. -/
def trainloaderCall : String :=
  "torch.utils.data.DataLoader(trainset, batch_size=4, shuffle=True, num_workers=2)"

/-- The test `DataLoader` construction, with its arguments. -/
def testloaderCall : String :=
  "torch.utils.data.DataLoader(testset, batch_size=4, shuffle=False, num_workers=2)"

/-- Code cells of the tabular (sklearn MLP) notebook, in order; each
cell lists the library calls it makes. -/
def tabularCells : List (List Stmt) :=
  [ [Stmt.call "plt.rcParams", Stmt.call "np.random.seed(100)"],
    [Stmt.call "os.path.join(data.csv)", Stmt.call "pd.read_csv(DATAPATH)",
     Stmt.call "df.head()"],
    [Stmt.call "np.array(df.texture_mean)", Stmt.call "np.array(df.radius_mean)",
     Stmt.call "np.vstack", Stmt.call "np.transpose"],
    [Stmt.call "preprocessing.LabelEncoder()", Stmt.call "le.fit",
     Stmt.call "le.transform(df.diagnosis)"],
    [Stmt.call "train_test_split(X, y, test_size=.3)"],
    [Stmt.call "StandardScaler()", Stmt.call "scaler.fit(X_train)",
     Stmt.call "scaler.transform(X_train)", Stmt.call "scaler.transform(X_test)"],
    [Stmt.call "MLPClassifier(solver=sgd)"],
    [Stmt.call "clf.fit(X_train, y_train)"],
    [Stmt.call "cross_val_score(clf, X_train, y_train, cv=3)", Stmt.call "print"],
    [Stmt.call "clf.predict_proba(X_test)"],
    [Stmt.call "print", Stmt.call "np.argmax(x_predict)"],
    [Stmt.call "roc_curve(y_test, x_predict)", Stmt.call "roc_auc_score"],
    [Stmt.call "plt.subplots", Stmt.call "plt.plot", Stmt.call "plt.show()"],
    [Stmt.call "np.meshgrid", Stmt.call "clf.predict_proba(grid)",
     Stmt.call "ax.contourf", Stmt.call "ax.scatter", Stmt.call "ax.legend"] ]

/-- Code cells of the CNN (PyTorch CIFAR-10) notebook, in order. -/
def cnnCells : List (List Stmt) :=
  [ [Stmt.call "import torch, torchvision, matplotlib, numpy"],
    [Stmt.call "nn.Conv2d(3, 6, 5)", Stmt.call "nn.MaxPool2d(2, 2)",
     Stmt.call "nn.Conv2d(6, 16, 5)", Stmt.call "nn.Linear(400, 120)",
     Stmt.call "nn.Linear(120, 84)", Stmt.call "nn.Linear(84, 10)",
     Stmt.call "Net()"],
    [Stmt.call "net.named_parameters()", Stmt.call "print"],
    [Stmt.call "arithmetic expression"],
    [Stmt.call "sum(p.numel())", Stmt.call "print"],
    [Stmt.call "net.parameters()", Stmt.call "print"],
    [Stmt.call "transforms.Compose", Stmt.call "transforms.ToTensor",
     Stmt.call "transforms.Normalize(0.5, 0.5)"],
    [Stmt.call cifarTrainCall, Stmt.call trainloaderCall,
     Stmt.call cifarTestCall, Stmt.call testloaderCall],
    [Stmt.call "iter(trainloader)", Stmt.call "dataiter.next()", Stmt.call "print"],
    [Stmt.call "imshow(make_grid(images))", Stmt.call "print"],
    [Stmt.call "nn.CrossEntropyLoss()"],
    [Stmt.call "optim.SGD(net.parameters(), lr=0.001, momentum=0.9)"],
    [Stmt.call "optimizer.zero_grad()", Stmt.call "net(inputs)",
     Stmt.call "criterion(outputs, labels)", Stmt.call "loss.backward()",
     Stmt.call "optimizer.step()", Stmt.call "print"],
    [Stmt.call "iter(testloader)", Stmt.call "dataiter.next()",
     Stmt.call "imshow(make_grid(images))", Stmt.call "print"],
    [Stmt.call "net(images)", Stmt.call "print", Stmt.call "torch.transpose"],
    [Stmt.call "torch.max(outputs, 1)", Stmt.call "print"],
    [Stmt.call "net(images)", Stmt.call "torch.max(outputs.data, 1)",
     Stmt.call "print"],
    [Stmt.call "net(images)", Stmt.call "torch.max(outputs, 1)",
     Stmt.call "squeeze", Stmt.call "print"],
    [Stmt.call "nn.Sequential(net.children())", Stmt.call "net_intermediate.eval()"],
    [Stmt.call "iter(testloader)", Stmt.call "dataiter.next()",
     Stmt.call "imshow(make_grid(images))", Stmt.call "print"],
    [Stmt.call "net_intermediate(images)", Stmt.call "plt.subplots",
     Stmt.call "ax.imshow"] ]

/-- Every code cell of both notebooks. -/
def allCells : List (List Stmt) := tabularCells ++ cnnCells

/-- Files a statement writes, per the invoked library's documented
contract: `torchvision.datasets.CIFAR10(..., download=True)` downloads
the dataset archive into `root` and extracts it; no other call made by
either notebook writes to the filesystem. -/
def stmtWrites : Stmt → List String
  | .call n =>
    if n = cifarTrainCall ∨ n = cifarTestCall then
      ["./cifar-10-python.tar.gz", "./cifar-10-batches-py"]
    else []
  | .tryExcept b h => stmtWrites b ++ stmtWrites h

/-- Concurrent worker processes a statement introduces, per the invoked
library's documented contract: `torch.utils.data.DataLoader` with
`num_workers=2` spawns 2 loader worker processes; every other call in
the notebooks runs in the calling thread. -/
def stmtWorkers : Stmt → ℕ
  | .call n =>
    if n = trainloaderCall ∨ n = testloaderCall then 2 else 0
  | .tryExcept b h => stmtWorkers b + stmtWorkers h

/-- Outcome environment: what error, if any, each library call raises
in a given run. -/
def Outcome := String → Option String

/-- Run one statement: a call raises whatever the environment says it
raises; `try/except` recovers by running the handler. -/
def runStmt (ω : Outcome) : Stmt → Option String
  | .call n => ω n
  | .tryExcept b h =>
    match runStmt ω b with
    | none => none
    | some _ => runStmt ω h

/-- Run a cell: statements execute in order and the first uncaught
error terminates the cell with that error. -/
def runCell (ω : Outcome) : List Stmt → Option String
  | [] => none
  | s :: rest =>
    match runStmt ω s with
    | some e => some e
    | none => runCell ω rest

/-- Run a notebook: cells are evaluated strictly in listed order, each
producing its outcome. -/
def runNotebook (ω : Outcome) (cells : List (List Stmt)) :
    List (Option String) :=
  cells.map (runCell ω)

/-! ### CNN notebook: DataLoader batching and the class-by-class loop -/

/-- Arguments of a `DataLoader` construction. -/
structure DataLoaderArgs where
  batchSize : ℕ
  shuffle : Bool
  numWorkers : ℕ
deriving DecidableEq, Repr

/-- The training loader's arguments, from the source. -/
def trainloaderArgs : DataLoaderArgs := ⟨4, true, 2⟩

/-- The test loader's arguments, from the source. -/
def testloaderArgs : DataLoaderArgs := ⟨4, false, 2⟩

/-- Batching of the test loader (`batch_size=4`, `shuffle=False`,
default `drop_last=False`): consecutive chunks of 4, with a final
partial chunk when the dataset size is not a multiple of 4. -/
def batches4 : List (ℕ × Bool) → List (List (ℕ × Bool))
  | a :: b :: c :: d :: rest => [a, b, c, d] :: batches4 rest
  | [] => []
  | l => [l]

/-- One increment of a per-class counter. -/
def bump (t : ℕ → ℕ) (c : ℕ) : ℕ → ℕ :=
  fun x => if x = c then t x + 1 else t x

/-- The body of the class-by-class loop for one batch: for
`i in range(4)`, read `labels[i]` and `c[i]` and update
`class_correct[label]` and `class_total[label]`.  A sample is a pair
(ground-truth label, predicted-correctly flag). -/
def loopBatch (tc : (ℕ → ℕ) × (ℕ → ℕ)) (batch : List (ℕ × Bool)) :
    (ℕ → ℕ) × (ℕ → ℕ) :=
  (List.range 4).foldl
    (fun tc i =>
      let s := batch.getD i (0, false)
      ((if s.2 then bump tc.1 s.1 else tc.1), bump tc.2 s.1))
    tc

/-- The class-by-class evaluation loop over all test batches, starting
from zeroed `class_correct` and `class_total`. -/
def classLoop (samples : List (ℕ × Bool)) : (ℕ → ℕ) × (ℕ → ℕ) :=
  (batches4 samples).foldl loopBatch (fun _ => 0, fun _ => 0)

/-- `class_total[c]` after the loop. -/
def classTotal (samples : List (ℕ × Bool)) (c : ℕ) : ℕ :=
  (classLoop samples).2 c

/-! ## Theorems for the claims -/

/-- C1: in the tabular notebook's scaling cell the scaler is fitted
exactly once, on `X_train`, as the first scaler operation, before both
transforms; both splits are transformed with the statistics fitted on
`X_train`, and the transformed training split does not depend on the
test data in any way. -/
theorem scaling_statistics_from_training_split_only :
    (scalingCellTrace.countP ScalerOp.isFit = 1 ∧
      scalingCellTrace.getD 0 (ScalerOp.transformOp "") = ScalerOp.fitOp "X_train" ∧
      scalingCellTrace.tail.all (fun op => !op.isFit) = true) ∧
    (∀ Xtrain Xtest : List (List ℝ),
      scalingCell Xtrain Xtest =
        ((StandardScaler.fit Xtrain).transform Xtrain,
          (StandardScaler.fit Xtrain).transform Xtest)) ∧
    ∀ Xtrain Xtest Xtest' : List (List ℝ),
      (scalingCell Xtrain Xtest).1 = (scalingCell Xtrain Xtest').1 :=
  ⟨⟨by decide, by decide, by decide⟩, fun _ _ => rfl, fun _ _ _ => rfl⟩

/-- C8: the hand-written parameter-count expression evaluates to 62006
and agrees with the programmatic `sum(p.numel() ...)` count for the
`Net` architecture. -/
theorem param_count_hand_equals_programmatic :
    handParamCount = 62006 ∧ netParamCount = handParamCount := by
  constructor <;> decide

/-- C9: the `imshow` un-normalization `img/2 + 0.5` is the exact
inverse of `Normalize((0.5,0.5,0.5),(0.5,0.5,0.5))`, pixelwise and on
whole images. -/
theorem imshow_inverts_normalize :
    (∀ x : ℚ, unNormalizePixel (normalizePixel x) = x) ∧
    ∀ img : List ℚ, unNormalizeImage (normalizeImage img) = img := by
  have hpix : ∀ x : ℚ, unNormalizePixel (normalizePixel x) = x := by
    intro x
    simp only [unNormalizePixel, normalizePixel]
    ring
  refine ⟨hpix, fun img => ?_⟩
  induction img with
  | nil => rfl
  | cons a t ih =>
    simp only [normalizeImage, unNormalizeImage, List.map_cons] at ih ⊢
    rw [hpix a, ih]

/-- C5 counterexample: the CNN notebook's dataset cell constructs
`torchvision.datasets.CIFAR10` with `download=True`, which writes the
dataset archive and its extraction to the filesystem, so it is false
that every statement of every cell writes no files. -/
theorem cifar_download_writes_files :
    Stmt.call cifarTrainCall ∈ cnnCells.getD 7 [] ∧
    cnnCells.getD 7 [] ∈ allCells ∧
    stmtWrites (Stmt.call cifarTrainCall) =
      ["./cifar-10-python.tar.gz", "./cifar-10-batches-py"] ∧
    ¬ (∀ c ∈ allCells, ∀ s ∈ c, stmtWrites s = []) := by
  refine ⟨by decide, by decide, by decide, fun h => ?_⟩
  have := h (cnnCells.getD 7 []) (by decide) (Stmt.call cifarTrainCall) (by decide)
  simp [stmtWrites, cifarTrainCall] at this

/-- C5 amended: executing the notebooks writes no files except the
CIFAR-10 dataset download: every statement of every cell writes
nothing, apart from the two `CIFAR10(..., download=True)` constructions,
which write exactly the dataset archive and extracted folder under
`./`. -/
theorem file_writes_only_cifar_download :
    (∀ c ∈ allCells, ∀ s ∈ c,
        stmtWrites s = [] ∨
        ((s = Stmt.call cifarTrainCall ∨ s = Stmt.call cifarTestCall) ∧
          stmtWrites s = ["./cifar-10-python.tar.gz", "./cifar-10-batches-py"])) ∧
    stmtWrites (Stmt.call cifarTrainCall) ≠ [] := by
  constructor
  · decide
  · decide

/-- C7 counterexample: both `DataLoader`s are constructed with
`num_workers=2`, which spawns two concurrent loader worker processes,
so it is false that no statement of the notebooks introduces
concurrently executing workers. -/
theorem dataloader_spawns_workers :
    Stmt.call trainloaderCall ∈ cnnCells.getD 7 [] ∧
    cnnCells.getD 7 [] ∈ allCells ∧
    stmtWorkers (Stmt.call trainloaderCall) = 2 ∧
    ¬ (∀ c ∈ allCells, ∀ s ∈ c, stmtWorkers s = 0) := by
  refine ⟨by decide, by decide, by decide, fun h => ?_⟩
  have := h (cnnCells.getD 7 []) (by decide) (Stmt.call trainloaderCall) (by decide)
  simp [stmtWorkers, trainloaderCall] at this

/-- C7 amended: cell evaluation is strictly sequential (`runNotebook`
maps `runCell` over the cells in listed order), and the only
concurrency the repository's code introduces is the two data-loading
worker processes requested by each of the two `DataLoader`
constructions (`num_workers=2`); every other statement introduces
none. -/
theorem concurrency_only_dataloader_workers :
    (∀ c ∈ allCells, ∀ s ∈ c,
        stmtWorkers s = 0 ∨
        ((s = Stmt.call trainloaderCall ∨ s = Stmt.call testloaderCall) ∧
          stmtWorkers s = 2)) ∧
    trainloaderArgs.numWorkers = 2 ∧ testloaderArgs.numWorkers = 2 ∧
    ∀ (ω : Outcome) (cell : List Stmt) (cells : List (List Stmt)),
      runNotebook ω (cell :: cells) = runCell ω cell :: runNotebook ω cells := by
  exact ⟨by decide, rfl, rfl, fun _ _ _ => rfl⟩

/-! ### Helper lemmas for the scaler postcondition (C2) -/

/-- Sum of a column shifted by `m` and divided by `s`. -/
theorem sum_map_sub_div (l : List ℝ) (m s : ℝ) :
    (l.map (fun x => (x - m) / s)).sum = (l.sum - l.length * m) / s := by
  induction l with
  | nil => simp
  | cons a t ih =>
    simp only [List.map_cons, List.sum_cons, List.length_cons, ih,
      div_add_div_same]
    push_cast
    ring_nf

/-- Sum of squares of a column shifted by `m` and divided by `s`. -/
theorem sum_map_sq_div (l : List ℝ) (m s : ℝ) :
    (l.map (fun x => ((x - m) / s) ^ 2)).sum
      = (l.map (fun x => (x - m) ^ 2)).sum / s ^ 2 := by
  induction l with
  | nil => simp
  | cons a t ih =>
    rw [List.map_cons, List.sum_cons, ih, div_pow, List.map_cons,
      List.sum_cons, div_add_div_same]

/-- Standardizing a column against its own mean yields mean zero,
whatever the divisor. -/
theorem mean_standardize_self (l : List ℝ) (s : ℝ) :
    mean (standardize (mean l) s l) = 0 := by
  cases l with
  | nil => simp [mean, standardize]
  | cons a t =>
    have hn : ((a :: t).length : ℝ) ≠ 0 := by
      simp [List.length_cons]
      positivity
    simp only [mean, standardize, List.length_map, sum_map_sub_div]
    rw [mul_div_cancel₀ _ hn]
    simp

/-- The population variance is nonnegative. -/
theorem varOf_nonneg (l : List ℝ) : 0 ≤ varOf l := by
  refine div_nonneg (List.sum_nonneg ?_) (Nat.cast_nonneg _)
  intro y hy
  rcases List.mem_map.1 hy with ⟨x, _, rfl⟩
  positivity

/-- The standard deviation squares back to the variance. -/
theorem sq_stdOf (l : List ℝ) : stdOf l ^ 2 = varOf l := by
  simpa [stdOf] using Real.sq_sqrt (varOf_nonneg l)

/-- A nonzero standard deviation means a nonzero variance. -/
theorem varOf_ne_zero_of_stdOf (l : List ℝ) (h : stdOf l ≠ 0) :
    varOf l ≠ 0 := by
  intro hv
  exact h (by simp [stdOf, hv])

/-- C2: standardizing the training split with its own fitted statistics
yields mean 0 and variance 1 on every feature column whose standard
deviation is nonzero; the concrete training column `[1, 3]` witnesses
this, and the concrete test column `[5, 7]` transformed with the
training statistics of `[1, 3]` has nonzero mean, so the postcondition
is not guaranteed for the transformed test split. -/
theorem train_split_standardized_mean_zero_var_one :
    (∀ l : List ℝ, stdOf l ≠ 0 →
        mean (selfScaled l) = 0 ∧ varOf (selfScaled l) = 1) ∧
    (stdOf [(1 : ℝ), 3] ≠ 0 ∧
      mean (selfScaled [(1 : ℝ), 3]) = 0 ∧ varOf (selfScaled [(1 : ℝ), 3]) = 1) ∧
    mean (standardize (mean [(1 : ℝ), 3]) (stdOf [(1 : ℝ), 3]) [5, 7]) ≠ 0 := by
  have hvar13 : varOf [(1 : ℝ), 3] = 1 := by
    norm_num [varOf, mean, List.sum_cons, List.sum_nil]
  have hstd13 : stdOf [(1 : ℝ), 3] = 1 := by
    rw [stdOf, hvar13, Real.sqrt_one]
  have main : ∀ l : List ℝ, stdOf l ≠ 0 →
      mean (selfScaled l) = 0 ∧ varOf (selfScaled l) = 1 := by
    intro l h
    have hvar : varOf l ≠ 0 := varOf_ne_zero_of_stdOf l h
    have hmean : mean (selfScaled l) = 0 := mean_standardize_self l (stdOf l)
    refine ⟨hmean, ?_⟩
    have hlen : l ≠ [] := by
      rintro rfl
      exact hvar (by simp [varOf])
    have hn : (l.length : ℝ) ≠ 0 :=
      Nat.cast_ne_zero.2 (fun h0 => hlen (List.length_eq_zero.1 h0))
    have hS : (l.map (fun x => (x - mean l) ^ 2)).sum = varOf l * l.length := by
      unfold varOf
      rw [div_mul_cancel₀ _ hn]
    unfold varOf
    rw [hmean]
    simp only [sub_zero, selfScaled, standardize, List.map_map,
      Function.comp_def, List.length_map]
    rw [sum_map_sq_div l (mean l) (stdOf l), sq_stdOf, hS, mul_comm,
      mul_div_assoc, div_self hvar, mul_one, div_self hn]
  refine ⟨main, ⟨by rw [hstd13]; norm_num, main _ (by rw [hstd13]; norm_num)⟩, ?_⟩
  rw [hstd13]
  norm_num [mean, standardize, List.sum_cons, List.sum_nil]

/-! ### Helper lemmas for argmax (C3) -/

/-- Every entry of a row is at most `listMax`. -/
theorem le_listMax (l : List ℚ) : ∀ x ∈ l, x ≤ listMax l := by
  induction l with
  | nil => intro x hx; cases hx
  | cons a t ih =>
    cases t with
    | nil =>
      intro x hx
      rcases List.mem_singleton.1 hx with rfl
      exact le_rfl
    | cons b u =>
      intro x hx
      rcases List.mem_cons.1 hx with rfl | hx
      · exact le_max_left _ _
      · exact le_trans (ih x hx) (le_max_right _ _)

/-- `npArgmax` returns an in-bounds index on a nonempty row. -/
theorem npArgmax_lt_length (l : List ℚ) (h : l ≠ []) :
    npArgmax l < l.length := by
  induction l with
  | nil => cases h rfl
  | cons a t ih =>
    cases t with
    | nil => simp [npArgmax]
    | cons b u =>
      rw [npArgmax]
      split
      · simp
      · have := ih (by simp)
        simpa [Nat.succ_lt_succ_iff] using this

/-- The entry at `npArgmax` is the row maximum. -/
theorem getD_npArgmax (l : List ℚ) (h : l ≠ []) :
    l.getD (npArgmax l) 0 = listMax l := by
  induction l with
  | nil => cases h rfl
  | cons a t ih =>
    cases t with
    | nil => simp [npArgmax, listMax]
    | cons b u =>
      rw [npArgmax, listMax]
      split
      · rename_i hle
        simpa using (max_eq_left hle).symm
      · rename_i hlt
        have hx : a ≤ listMax (b :: u) := le_of_not_le (fun hc => hlt hc)
        rw [List.getD_cons_succ, ih (by simp), max_eq_right hx]

/-- `torch.max` along a row returns the row maximum as its value. -/
theorem torchMaxRow_fst (l : List ℚ) : (torchMaxRow l).1 = listMax l := by
  induction l with
  | nil => rfl
  | cons a t ih =>
    cases t with
    | nil => rfl
    | cons b u =>
      rw [torchMaxRow, listMax]
      split
      · rename_i hle
        rw [ih] at hle
        simpa using (max_eq_left hle).symm
      · rename_i hgt
        rw [ih] at hgt
        have hx : a ≤ listMax (b :: u) := le_of_not_le hgt
        simpa [ih] using (max_eq_right hx).symm

/-- `torch.max` along a row returns the same index as `np.argmax`. -/
theorem torchMaxRow_snd (l : List ℚ) : (torchMaxRow l).2 = npArgmax l := by
  induction l with
  | nil => rfl
  | cons a t ih =>
    cases t with
    | nil => rfl
    | cons b u =>
      rw [torchMaxRow, npArgmax, torchMaxRow_fst (b :: u)]
      split
      · rfl
      · simp [ih]

/-- C3: the class the tabular notebook prints is `np.argmax` of the
probability row and is an in-bounds index carrying the row's maximum
probability (for the two-entry rows of `predict_proba` it is 0 exactly
when the first probability is at least the second); and the CNN
notebook's `torch.max(outputs, 1)` prediction is, for every output row,
the index of that row's maximum raw score, agreeing with `np.argmax`. -/
theorem predicted_class_is_argmax :
    (∀ row : List ℚ, row ≠ [] →
        printedPredictedClass row < row.length ∧
        ∀ x ∈ row, x ≤ row.getD (printedPredictedClass row) 0) ∧
    (∀ p0 p1 : ℚ, printedPredictedClass [p0, p1] = if p1 ≤ p0 then 0 else 1) ∧
    (∀ outputs : List (List ℚ),
        torchPredicted outputs = outputs.map npArgmax) ∧
    ∀ row : List ℚ, row ≠ [] →
      (torchMaxRow row).1 = listMax row ∧
      ∀ x ∈ row, x ≤ row.getD ((torchMaxRow row).2) 0 := by
  refine ⟨?_, ?_, ?_, ?_⟩
  · intro row hrow
    refine ⟨npArgmax_lt_length row hrow, ?_⟩
    intro x hx
    rw [printedPredictedClass, getD_npArgmax row hrow]
    exact le_listMax row x hx
  · intro p0 p1
    simp [printedPredictedClass, npArgmax, listMax]
  · intro outputs
    simp only [torchPredicted]
    exact List.map_congr_left (fun row _ => torchMaxRow_snd row)
  · intro row hrow
    refine ⟨torchMaxRow_fst row, ?_⟩
    intro x hx
    rw [torchMaxRow_snd, getD_npArgmax row hrow]
    exact le_listMax row x hx

/-- C4: `Net.forward` is shape-correct on CIFAR-10 batches: for every
batch size `B`, conv1 maps `B×3×32×32` to `B×6×28×28`, pooling to
`B×6×14×14`, conv2 to `B×16×10×10`, pooling to `B×16×5×5`, the view to
`16*5*5 = 400` features divides exactly and preserves `B`, and the
whole forward pass outputs shape `B×10`. -/
theorem net_forward_shape_correct (B : ℕ) :
    conv2dShape 3 6 5 ⟨B, 3, 32, 32⟩ = some ⟨B, 6, 28, 28⟩ ∧
    maxPool2dShape 2 2 ⟨B, 6, 28, 28⟩ = some ⟨B, 6, 14, 14⟩ ∧
    conv2dShape 6 16 5 ⟨B, 6, 14, 14⟩ = some ⟨B, 16, 10, 10⟩ ∧
    maxPool2dShape 2 2 ⟨B, 16, 10, 10⟩ = some ⟨B, 16, 5, 5⟩ ∧
    B * 16 * 5 * 5 % (16 * 5 * 5) = 0 ∧
    viewFlatten (16 * 5 * 5) ⟨B, 16, 5, 5⟩ = some ⟨B, 16 * 5 * 5⟩ ∧
    netForwardShape ⟨B, 3, 32, 32⟩ = some ⟨B, 10⟩ := by
  have harith : B * 16 * 5 * 5 = (16 * 5 * 5) * B := by ring
  have hmod : B * 16 * 5 * 5 % (16 * 5 * 5) = 0 := by
    rw [harith]
    exact Nat.mul_mod_right _ _
  have hdiv : B * 16 * 5 * 5 / (16 * 5 * 5) = B := by
    rw [harith]
    exact Nat.mul_div_cancel_left _ (by norm_num)
  have hview : viewFlatten (16 * 5 * 5) ⟨B, 16, 5, 5⟩ = some ⟨B, 16 * 5 * 5⟩ := by
    simp only [viewFlatten]
    rw [if_pos hmod, hdiv]
  have hc1 : conv2dShape 3 6 5 ⟨B, 3, 32, 32⟩ = some ⟨B, 6, 28, 28⟩ := by
    simp [conv2dShape]
  have hp1 : maxPool2dShape 2 2 ⟨B, 6, 28, 28⟩ = some ⟨B, 6, 14, 14⟩ := by
    simp [maxPool2dShape]
  have hc2 : conv2dShape 6 16 5 ⟨B, 6, 14, 14⟩ = some ⟨B, 16, 10, 10⟩ := by
    simp [conv2dShape]
  have hp2 : maxPool2dShape 2 2 ⟨B, 16, 10, 10⟩ = some ⟨B, 16, 5, 5⟩ := by
    simp [maxPool2dShape]
  refine ⟨hc1, hp1, hc2, hp2, hmod, hview, ?_⟩
  simp only [netForwardShape, hc1, Option.some_bind, reluShape, hp1, hc2,
    hp2, hview, reluShape2, linearShape]
  simp

/-- C6: neither notebook contains any exception handler, and in the
cell semantics an error raised by any library call, all earlier
statements of the cell having succeeded, propagates uncaught as the
cell's outcome no matter what follows it — no retry, recovery, or
alternative branch. -/
theorem no_error_handling_propagates :
    (∀ c ∈ allCells, ∀ s ∈ c, s.hasHandler = false) ∧
    ∀ (ω : Outcome) (pre rest : List Stmt) (name e : String),
      (∀ s ∈ pre, runStmt ω s = none) → ω name = some e →
      runCell ω (pre ++ Stmt.call name :: rest) = some e := by
  constructor
  · decide
  · intro ω pre rest name e hpre herr
    induction pre with
    | nil => simp [runCell, runStmt, herr]
    | cons s t ih =>
      have hs : runStmt ω s = none := hpre s (List.mem_cons_self s t)
      have ht : ∀ s' ∈ t, runStmt ω s' = none :=
        fun s' hs' => hpre s' (List.mem_cons_of_mem s hs')
      simp only [List.cons_append, runCell, hs]
      exact ih ht

/-! ### Helper lemmas for the class-by-class loop (C10) -/

/-- When the sample count is a multiple of 4, every test batch has
exactly 4 samples. -/
theorem batches4_length_four :
    ∀ (samples : List (ℕ × Bool)), samples.length % 4 = 0 →
      ∀ b ∈ batches4 samples, b.length = 4
  | [], _, _, hb => by simp [batches4] at hb
  | [_], h, _, _ => by simp at h
  | [_, _], h, _, _ => by simp at h
  | [_, _, _], h, _, _ => by simp at h
  | a :: b :: e :: d :: rest, h, bb, hbb => by
    have h' : rest.length % 4 = 0 := by
      simp only [List.length_cons] at h
      omega
    simp only [batches4] at hbb
    rcases List.mem_cons.1 hbb with rfl | hbb
    · rfl
    · exact batches4_length_four rest h' bb hbb

/-- Pointwise value of one counter increment. -/
theorem bump_apply (t : ℕ → ℕ) (x c : ℕ) :
    bump t x c = t c + if c = x then 1 else 0 := by
  simp only [bump]
  split <;> simp

/-- The loop body on a full batch of 4 increments the per-class total
once per sample. -/
theorem loopBatch_snd (tc : (ℕ → ℕ) × (ℕ → ℕ)) (a b c d : ℕ × Bool) :
    (loopBatch tc [a, b, c, d]).2
      = bump (bump (bump (bump tc.2 a.1) b.1) c.1) d.1 := rfl

/-- Over batches of a sample list whose length is a multiple of 4, the
loop's `class_total[c]` counts exactly the occurrences of label `c`. -/
theorem classLoop_total_count :
    ∀ (samples : List (ℕ × Bool)), samples.length % 4 = 0 →
      ∀ (tc : (ℕ → ℕ) × (ℕ → ℕ)) (c : ℕ),
        ((batches4 samples).foldl loopBatch tc).2 c
          = tc.2 c + (samples.map Prod.fst).count c
  | [], _, tc, c => by simp [batches4]
  | [_], h, _, _ => by simp at h
  | [_, _], h, _, _ => by simp at h
  | [_, _, _], h, _, _ => by simp at h
  | a :: b :: e :: d :: rest, h, tc, c => by
    have h' : rest.length % 4 = 0 := by
      simp only [List.length_cons] at h
      omega
    have hrec := classLoop_total_count rest h' (loopBatch tc [a, b, e, d]) c
    simp only [batches4, List.foldl_cons]
    rw [hrec, loopBatch_snd]
    simp only [bump_apply, List.map_cons, List.count_cons, beq_iff_eq]
    split_ifs <;> omega

/-- `class_total[c]` after the loop equals the number of test samples
with ground-truth label `c`. -/
theorem classTotal_eq_count (samples : List (ℕ × Bool)) (c : ℕ)
    (h : samples.length % 4 = 0) :
    classTotal samples c = (samples.map Prod.fst).count c := by
  unfold classTotal classLoop
  rw [classLoop_total_count samples h]
  simp

/-- C10: when the number of test samples is a multiple of the batch
size 4 (as CIFAR-10's 10000 test images are, with the test loader's
`batch_size=4`), every batch of the class-by-class loop has exactly 4
samples, so the `labels[i]` / `c[i]` accesses for `i in range(4)` are
in-bounds in every batch; and when every one of the 10 classes occurs
among the test labels, every `class_total[i]` is positive, so each
final per-class accuracy division is well-defined. -/
theorem class_loop_index_safety (samples : List (ℕ × Bool))
    (hlen : samples.length % 4 = 0)
    (hocc : ∀ c < 10, c ∈ samples.map Prod.fst) :
    (∀ b ∈ batches4 samples, b.length = 4) ∧
    (∀ b ∈ batches4 samples, ∀ i < 4, i < b.length) ∧
    (∀ c < 10, 0 < classTotal samples c) ∧
    testloaderArgs.batchSize = 4 ∧ testloaderArgs.shuffle = false ∧
    10000 % testloaderArgs.batchSize = 0 := by
  have hb := batches4_length_four samples hlen
  refine ⟨hb, ?_, ?_, rfl, rfl, by decide⟩
  · intro b hbb i hi
    rw [hb b hbb]
    exact hi
  · intro c hc
    rw [classTotal_eq_count samples c hlen]
    exact Nat.pos_of_ne_zero (fun h0 => (List.count_eq_zero.1 h0) (hocc c hc))

/-- Witness for C10 at a concrete sample list of length 12 containing
every class 0..9. -/
theorem class_loop_index_safety_witness :
    0 < classTotal
      [(0, true), (1, true), (2, false), (3, true), (4, true), (5, false),
        (6, true), (7, true), (8, true), (9, false), (0, true), (1, true)] 7 :=
  (class_loop_index_safety
    [(0, true), (1, true), (2, false), (3, true), (4, true), (5, false),
      (6, true), (7, true), (8, true), (9, false), (0, true), (1, true)]
    (by decide) (by decide)).2.2.1 7 (by norm_num)

end MLClass
